import Mathlib

/-!
Shallow embedding of the palworld-rcon client (`rcon.go`).

The external transport library (`rcon.Dial`, `Conn.Execute`, `Conn.Close`)
is modelled as a deterministic oracle: a `World` holds a script of answers
for each kind of transport call, consumed in order, and every transport
call additionally emits an `Event` into a trace so that theorems can count
dials, executes and closes.  The client methods are translated statement
by statement from `rcon.go`, threading the `Client`, the `World` and the
trace explicitly.
-/

namespace PalworldRcon

/-- Go `error` values that appear in this program: the two severed-connection
sentinels `io.EOF` and `syscall.EPIPE`, other transport errors, dial errors,
close errors, and errors built by `fmt.Errorf` in the decoders. -/
inductive GoErr where
  | eof
  | epipe
  | transport (msg : String)
  | dialErr (msg : String)
  | closeFail (msg : String)
  | fmtErr (msg : String)
deriving DecidableEq, Repr

/-- An opaque live transport connection (`*rcon.Conn`), identified by an id. -/
structure Conn where
  id : Nat
deriving DecidableEq, Repr

/-- The `Client` struct of `rcon.go`: address, password, and the optional
owned connection (`conn *rcon.Conn`, `none` = Go `nil`). -/
structure Client where
  address : String
  password : String
  conn : Option Conn
deriving DecidableEq, Repr

instance {α β : Type} [DecidableEq α] [DecidableEq β] :
    DecidableEq (Except α β) := fun a b =>
  match a, b with
  | .ok x, .ok y => if h : x = y then .isTrue (by simp [h]) else .isFalse (by simp [h])
  | .error x, .error y => if h : x = y then .isTrue (by simp [h]) else .isFalse (by simp [h])
  | .ok _, .error _ => .isFalse (by simp)
  | .error _, .ok _ => .isFalse (by simp)

/-- The transport oracle: scripted answers for `rcon.Dial`, `Conn.Execute`
and `Conn.Close` calls, each list consumed front to back. An `Execute`
answer is the `(response, err)` pair the Go call returns. -/
structure World where
  dials : List (Except GoErr Conn)
  execs : List (String × Option GoErr)
  closes : List (Option GoErr)
deriving DecidableEq, Repr

/-- Trace of transport activity performed by the client. -/
inductive Event where
  | dial (address password : String) (result : Except GoErr Conn)
  | exec (c : Conn) (command response : String) (err : Option GoErr)
  | close (c : Conn) (err : Option GoErr)
deriving DecidableEq, Repr

def Event.isDial : Event → Bool
  | .dial _ _ _ => true
  | _ => false

def Event.isExec : Event → Bool
  | .exec _ _ _ _ => true
  | _ => false

/-- Model of `rcon.Dial(address, password)`: pops the next scripted dial answer. -/
def rconDial (address password : String) (w : World) :
    Except GoErr Conn × World × List Event :=
  match w.dials with
  | [] =>
      (.error (.dialErr "script exhausted"), w,
        [.dial address password (.error (.dialErr "script exhausted"))])
  | d :: rest => (d, { w with dials := rest }, [.dial address password d])

/-- Model of `conn.Execute(command)`: pops the next scripted `(response, err)` answer. -/
def connExecute (c : Conn) (command : String) (w : World) :
    (String × Option GoErr) × World × List Event :=
  match w.execs with
  | [] =>
      (("", some (.transport "script exhausted")), w,
        [.exec c command "" (some (.transport "script exhausted"))])
  | (resp, err) :: rest =>
      ((resp, err), { w with execs := rest }, [.exec c command resp err])

/-- Model of `conn.Close()`: pops the next scripted close answer. -/
def connClose (c : Conn) (w : World) :
    Option GoErr × World × List Event :=
  match w.closes with
  | [] => (none, w, [.close c none])
  | e :: rest => (e, { w with closes := rest }, [.close c e])

/-- Constructor `NewClient(address, password)`: builds the struct; performs no transport
call, so the world is unchanged and the trace is empty. -/
def NewClient (address password : String) (w : World) :
    Client × World × List Event :=
  ({ address := address, password := password, conn := none }, w, [])

/-- Method `(r *Client) Close()`: nil connection returns nil; otherwise close the
connection, always clear the field, and return the close's outcome. -/
def Client.Close (r : Client) (w : World) :
    Option GoErr × Client × World × List Event :=
  match r.conn with
  | none => (none, r, w, [])
  | some c =>
      let (err, w1, ev) := connClose c w
      (err, { r with conn := none }, w1, ev)

/-- Method `(r *Client) connect()`: best-effort close of any owned connection
(error ignored), then dial; on dial failure the field stays nil. -/
def Client.connect (r : Client) (w : World) :
    Option GoErr × Client × World × List Event :=
  let (r1, w1, ev1) :=
    match r.conn with
    | some c =>
        let (_, w1, ev1) := connClose c w
        ({ r with conn := none }, w1, ev1)
    | none => (r, w, [])
  let (d, w2, ev2) := rconDial r1.address r1.password w1
  match d with
  | .error err => (some err, r1, w2, ev1 ++ ev2)
  | .ok conn => (none, { r1 with conn := some conn }, w2, ev1 ++ ev2)

/-- Model of `strings.HasPrefix s p`. -/
def hasPre (s p : String) : Bool := p.toList.isPrefixOf s.toList

/-- The whitespace class of Go `unicode.IsSpace` (ASCII part, which is all
the responses at play contain): `\t \n \v \f \r` and space. -/
def goIsSpace (c : Char) : Bool :=
  c = '\t' || c = '\n' || c = '\x0b' || c = '\x0c' || c = '\r' || c = ' '

/-- Model of `strings.TrimSpace`: drop leading and trailing whitespace. -/
def trimSpace (s : String) : String :=
  String.mk (((s.toList.dropWhile goIsSpace).reverse.dropWhile goIsSpace).reverse)

/-- Test `errors.Is(err, io.EOF) || errors.Is(err, syscall.EPIPE)` applied
to the execute error: the severed-connection signal. -/
def isSeveredSignal : Option GoErr → Bool
  | some .eof => true
  | some .epipe => true
  | _ => false

/-- Method `(r *Client) executeWithRetry(command, retry)`: lazily connect if no
connection is owned, execute, and on a severed-connection signal with
`retry` set, reconnect once and recurse with `retry` forced to false.
The returned response is `strings.TrimSpace`d. -/
def Client.executeWithRetry (r : Client) (w : World) (command : String)
    (retry : Bool) : (String × Option GoErr) × Client × World × List Event :=
  let pre : Option GoErr × Client × World × List Event :=
    match r.conn with
    | none => r.connect w
    | some _ => (none, r, w, [])
  match pre with
  | (some err, r1, w1, ev1) => (("", some err), r1, w1, ev1)
  | (none, r1, w1, ev1) =>
      let c := r1.conn.getD ⟨0⟩
      let ((response, err), w2, ev2) := connExecute c command w1
      if isSeveredSignal err && retry then
        let (err2, r2, w3, ev3) := r1.connect w2
        match err2 with
        | some e => (("", some e), r2, w3, ev1 ++ ev2 ++ ev3)
        | none =>
            let (res, r3, w4, ev4) := r2.executeWithRetry w3 command false
            (res, r3, w4, ev1 ++ ev2 ++ ev3 ++ ev4)
      else
        ((trimSpace response, err), r1, w2, ev1 ++ ev2)
termination_by (if retry then 1 else 0)
decreasing_by simp_all

/-- Method `(r *Client) BanPlayer(steamID)`: success iff the response has the
(sic) success marker at its start. -/
def Client.BanPlayer (r : Client) (w : World) (steamID : Nat) :
    Option GoErr × Client × World × List Event :=
  let ((response, err), r1, w1, ev) :=
    r.executeWithRetry w ("BanPlayer " ++ toString steamID) true
  match err with
  | some e => (some e, r1, w1, ev)
  | none =>
      if !(hasPre response "Baned: ") then
        (some (.fmtErr ("failed to ban player: " ++ response)), r1, w1, ev)
      else (none, r1, w1, ev)

/-- Method `(r *Client) Broadcast(message)`. -/
def Client.Broadcast (r : Client) (w : World) (message : String) :
    Option GoErr × Client × World × List Event :=
  let ((response, err), r1, w1, ev) :=
    r.executeWithRetry w ("Broadcast " ++ message) true
  match err with
  | some e => (some e, r1, w1, ev)
  | none =>
      if !(hasPre response "Broadcasted: ") then
        (some (.fmtErr ("failed to broadcast: " ++ response)), r1, w1, ev)
      else (none, r1, w1, ev)

/-- Method `(r *Client) DoExit()`: success iff the response is exactly
`Shutdown...`. -/
def Client.DoExit (r : Client) (w : World) :
    Option GoErr × Client × World × List Event :=
  let ((response, err), r1, w1, ev) := r.executeWithRetry w "DoExit" true
  match err with
  | some e => (some e, r1, w1, ev)
  | none =>
      if response ≠ "Shutdown..." then
        (some (.fmtErr ("failed to shut down: " ++ response)), r1, w1, ev)
      else (none, r1, w1, ev)

/-- Method `(r *Client) KickPlayer(steamID)`. -/
def Client.KickPlayer (r : Client) (w : World) (steamID : Nat) :
    Option GoErr × Client × World × List Event :=
  let ((response, err), r1, w1, ev) :=
    r.executeWithRetry w ("KickPlayer " ++ toString steamID) true
  match err with
  | some e => (some e, r1, w1, ev)
  | none =>
      if !(hasPre response "Kicked: ") then
        (some (.fmtErr ("failed to kick player: " ++ response)), r1, w1, ev)
      else (none, r1, w1, ev)

/-- Method `(r *Client) Save()`. -/
def Client.Save (r : Client) (w : World) :
    Option GoErr × Client × World × List Event :=
  let ((response, err), r1, w1, ev) := r.executeWithRetry w "Save" true
  match err with
  | some e => (some e, r1, w1, ev)
  | none =>
      if response ≠ "Complete Save" then
        (some (.fmtErr ("failed to save: " ++ response)), r1, w1, ev)
      else (none, r1, w1, ev)

/-- The `ServerInfo` struct returned by `Info`. -/
structure ServerInfo where
  ServerName : String
  Version : String
deriving DecidableEq, Repr

/-- The `\s` character class of Go regexp (RE2): `[\t\n\f\r ]`. -/
def goRegexSpace (c : Char) : Bool :=
  c = '\t' || c = '\n' || c = '\x0c' || c = '\r' || c = ' '

/-- Model of `infoRegex.FindStringSubmatch` for the anchored pattern
`^Welcome to Pal Server\[v([\d\.]+)\]\s*(.*?)$` (Go regexp, no multiline
flag, so `^`/`$` anchor to the whole text and `.` does not match a
newline), returning `(version, name)` — submatches 1 and 2.  The greedy
`[\d\.]+` cannot backtrack usefully (the class never contains `]`), so it
is the maximal run of digits and dots; `\s*` greedily eats whitespace and
the lazy `(.*?)$` then spans the rest, which must be newline-free. -/
def dropLiteral : List Char → List Char → Option (List Char)
  | [], cs => some cs
  | _ :: _, [] => none
  | p :: ps, c :: cs => if c = p then dropLiteral ps cs else none

def infoRegexMatch (s : String) : Option (String × String) :=
  match dropLiteral "Welcome to Pal Server[v".toList s.toList with
  | none => none
  | some rest =>
      let ver := rest.takeWhile (fun c => c.isDigit || c = '.')
      match ver, rest.drop ver.length with
      | [], _ => none
      | _ :: _, ']' :: afterBracket =>
          let name := afterBracket.dropWhile goRegexSpace
          if name.contains '\n' then none
          else some (String.mk ver, String.mk name)
      | _ :: _, _ => none

/-- Method `(r *Client) Info()`: regex-decode the response into a `ServerInfo`
(submatch 2 is the name, submatch 1 the version). -/
def Client.Info (r : Client) (w : World) :
    (Option ServerInfo × Option GoErr) × Client × World × List Event :=
  let ((response, err), r1, w1, ev) := r.executeWithRetry w "Info" true
  match err with
  | some e => ((none, some e), r1, w1, ev)
  | none =>
      match infoRegexMatch response with
      | none =>
          ((none, some (.fmtErr ("failed to parse Info output: " ++ response))),
            r1, w1, ev)
      | some (version, name) =>
          ((some { ServerName := name, Version := version }, none), r1, w1, ev)

/-- The `Player` struct returned by `ShowPlayers`. `PlayerUID` and `SteamID`
are Go `uint64` values, kept as `Nat` with the range enforced by the
`strconv.ParseUint` model. -/
structure Player where
  Name : String
  PlayerUID : Nat
  SteamID : Nat
deriving DecidableEq, Repr

/-- Model of `strconv.ParseUint(s, 10, 64)`: nonempty, decimal digits
only (no sign), and the value must fit in 64 bits; the error value is the
strconv message fragment. -/
def parseUint64 (s : String) : Except String Nat :=
  match s.toList with
  | [] => .error "invalid syntax"
  | cs =>
      if cs.all (fun c => '0' ≤ c && c ≤ '9') then
        let n := cs.foldl (fun acc c => acc * 10 + (c.toNat - 48)) 0
        if n < 2 ^ 64 then .ok n else .error "value out of range"
      else .error "invalid syntax"

/-- Errors of the `encoding/csv` reader model. -/
inductive CsvErr where
  | bareQuote
  | quote
  | fieldCount
deriving DecidableEq, Repr

def csvErrMsg : CsvErr → String
  | .bareQuote => "bare \" in non-quoted field"
  | .quote => "extraneous or missing \" in quoted-field"
  | .fieldCount => "wrong number of fields"

/-- Scan of one non-quoted CSV field: characters up to a comma (field
separator, record continues) or a line ending `\n` / `\r\n` or the end of
input (record ends). Returns (field, continues, rest). -/
def csvUnquotedSplit : List Char → List Char × Bool × List Char
  | [] => ([], false, [])
  | ',' :: rest => ([], true, rest)
  | '\r' :: '\n' :: rest => ([], false, rest)
  | '\n' :: rest => ([], false, rest)
  | c :: rest =>
      let (f, sep, r) := csvUnquotedSplit rest
      (c :: f, sep, r)

/-- Scan of one quoted CSV field (opening `"` already consumed): `""` is
an escaped quote, `\r\n` inside the field becomes `\n`, the closing quote
must be followed by a comma, a line ending or the end of input, and a
quote left open at end of input is an error. Returns
(field, continues, rest). -/
def csvQuoted (acc : List Char) : List Char → Except CsvErr (String × Bool × List Char)
  | [] => .error .quote
  | '"' :: '"' :: rest => csvQuoted (acc ++ ['"']) rest
  | '"' :: ',' :: rest => .ok (String.mk acc, true, rest)
  | '"' :: '\r' :: '\n' :: rest => .ok (String.mk acc, false, rest)
  | '"' :: '\n' :: rest => .ok (String.mk acc, false, rest)
  | ['"'] => .ok (String.mk acc, false, [])
  | '"' :: _ :: _ => .error .quote
  | '\r' :: '\n' :: rest => csvQuoted (acc ++ ['\n']) rest
  | c :: rest => csvQuoted (acc ++ [c]) rest

/-- One CSV field: quoted if it starts with `"`, else non-quoted with a
bare `"` inside being an error (LazyQuotes is off by default). -/
def csvField (cs : List Char) : Except CsvErr (String × Bool × List Char) :=
  match cs with
  | '"' :: rest => csvQuoted [] rest
  | _ =>
      let (f, sep, r) := csvUnquotedSplit cs
      if f.contains '"' then .error .bareQuote
      else .ok (String.mk f, sep, r)

/-- One CSV record: fields separated by commas until a line ending or the
end of input. `fuel` bounds the number of fields. -/
def csvRecord : Nat → List Char → Except CsvErr (List String × List Char)
  | 0, _ => .error .quote
  | fuel + 1, cs =>
      match csvField cs with
      | .error e => .error e
      | .ok (field, sep, rest) =>
          if sep then
            match csvRecord fuel rest with
            | .error e => .error e
            | .ok (fields, rest2) => .ok (field :: fields, rest2)
          else .ok ([field], rest)

/-- All CSV records: blank lines are skipped (not records), and — as the
default `csv.Reader` with `FieldsPerRecord = 0` enforces — every record
must have as many fields as the first one (`ErrFieldCount` otherwise). -/
def csvRecords : Nat → Option Nat → List Char → Except CsvErr (List (List String))
  | 0, _, _ => .error .quote
  | _, _, [] => .ok []
  | fuel + 1, expected, '\n' :: rest => csvRecords fuel expected rest
  | fuel + 1, expected, '\r' :: '\n' :: rest => csvRecords fuel expected rest
  | fuel + 1, expected, cs =>
      match csvRecord (fuel + 1) cs with
      | .error e => .error e
      | .ok (fields, rest) =>
          let expectedCount := expected.getD fields.length
          if fields.length = expectedCount then
            match csvRecords fuel (some expectedCount) rest with
            | .error e => .error e
            | .ok recs => .ok (fields :: recs)
          else .error .fieldCount

/-- Model of `csv.NewReader(strings.NewReader(s)).ReadAll()` with the
default reader settings. Each step of `csvRecords` consumes at least one
character, and a record of k fields consumes at least k-1, so
`length + 1` fuel always suffices. -/
def csvReadAll (s : String) : Except CsvErr (List (List String)) :=
  csvRecords (s.toList.length + 1) none s.toList

/-- Go `%v` of a `[]string`: elements separated by single spaces inside
square brackets. -/
def goFmtStrings (record : List String) : String :=
  "[" ++ String.intercalate " " record ++ "]"

/-- Go `%q` of a string (no escaping needed for the strings at play). -/
def goQuote (s : String) : String := "\"" ++ s ++ "\""

/-- Outcome of a Go call that can panic at runtime. -/
inductive PanicOr (α : Type) where
  | panic (msg : String)
  | ok (val : α)
deriving DecidableEq, Repr

/-- The `for _, record := range records[1:]` loop body of `ShowPlayers`:
each record must have exactly 3 columns and numeric UID/steam-ID fields;
on the first bad record the players collected so far are returned with
the error. -/
def parsePlayersLoop (players : List Player) :
    List (List String) → List Player × Option GoErr
  | [] => (players, none)
  | record :: rest =>
      if record.length ≠ 3 then
        (players,
          some (.fmtErr ("failed to parse player output: " ++ goFmtStrings record)))
      else
        match parseUint64 (record.getD 1 "") with
        | .error msg =>
            (players,
              some (.fmtErr ("failed to parse player UID: strconv.ParseUint: parsing "
                ++ goQuote (record.getD 1 "") ++ ": " ++ msg)))
        | .ok playerUID =>
            match parseUint64 (record.getD 2 "") with
            | .error msg =>
                (players,
                  some (.fmtErr ("failed to parse steam ID: strconv.ParseUint: parsing "
                    ++ goQuote (record.getD 2 "") ++ ": " ++ msg)))
            | .ok steamID =>
                parsePlayersLoop
                  (players ++ [{ Name := record.getD 0 "",
                                 PlayerUID := playerUID, SteamID := steamID }]) rest

/-- Method `(r *Client) ShowPlayers()`: CSV-decode the response; `records[1:]`
panics when the reader produced zero records (slicing a nil slice past
its length), which is why the result is a `PanicOr`. -/
def Client.ShowPlayers (r : Client) (w : World) :
    PanicOr ((List Player × Option GoErr) × Client × World × List Event) :=
  let players : List Player := []
  let ((response, err), r1, w1, ev) := r.executeWithRetry w "ShowPlayers" true
  match err with
  | some e => .ok ((players, some e), r1, w1, ev)
  | none =>
      match csvReadAll (trimSpace response) with
      | .error ce =>
          .ok ((players,
            some (.fmtErr ("failed to parse ShowPlayers response as CSV: "
              ++ csvErrMsg ce))), r1, w1, ev)
      | .ok [] => .panic "runtime error: slice bounds out of range [1:0]"
      | .ok (_ :: rows) => .ok (parsePlayersLoop players rows, r1, w1, ev)

/-- One well-formed `ShowPlayers` data row as the spec describes it:
exactly 3 columns, of which the last two are decimal uint64 numerals —
exactly the tests the `ShowPlayers` loop applies in order. -/
def rowToPlayer (record : List String) : Option Player :=
  if record.length ≠ 3 then none
  else
    match parseUint64 (record.getD 1 "") with
    | .error _ => none
    | .ok playerUID =>
        match parseUint64 (record.getD 2 "") with
        | .error _ => none
        | .ok steamID =>
            some { Name := record.getD 0 "", PlayerUID := playerUID, SteamID := steamID }

/-- The error component of a non-panicking `ShowPlayers` outcome. -/
def showPlayersErr
    (out : PanicOr ((List Player × Option GoErr) × Client × World × List Event)) :
    Option GoErr :=
  match out with
  | .panic _ => none
  | .ok ((_, e), _, _, _) => e

/-- Method `(r *Client) shutdown(args)`: note the `return nil` on a transport
error — the error is swallowed. -/
def Client.shutdown (r : Client) (w : World) (args : String) :
    Option GoErr × Client × World × List Event :=
  let ((response, err), r1, w1, ev) :=
    r.executeWithRetry w ("Shutdown " ++ args) true
  match err with
  | some _ => (none, r1, w1, ev)
  | none =>
      if !(hasPre response "The server will shut down") then
        (some (.fmtErr ("failed to shut down: " ++ response)), r1, w1, ev)
      else (none, r1, w1, ev)

/-- Method `(r *Client) Shutdown(seconds)`. -/
def Client.Shutdown (r : Client) (w : World) (seconds : Int) :
    Option GoErr × Client × World × List Event :=
  r.shutdown w (toString seconds)

/-- Method `(r *Client) ShutdownWithMessage(seconds, message)`. -/
def Client.ShutdownWithMessage (r : Client) (w : World) (seconds : Int)
    (message : String) : Option GoErr × Client × World × List Event :=
  r.shutdown w (toString seconds ++ " " ++ message)

/-! ## Theorems -/

/-- C4: `connect()` first closes any currently owned connection (ignoring
the close outcome `cl`) and releases ownership, then dials with the stored
address and password; on dial success the new connection is owned with no
error, on dial failure no connection is owned and the dial error is
returned. Ownership is an `Option`, so at most one connection is owned in
every state. -/
theorem connect_closes_then_dials (addr pass : String) (co : Option Conn)
    (d : Except GoErr Conn) (cl : Option GoErr)
    (ds : List (Except GoErr Conn)) (es : List (String × Option GoErr))
    (cs : List (Option GoErr)) :
    Client.connect ⟨addr, pass, co⟩ ⟨d :: ds, es, cl :: cs⟩ =
      ((match d with | .ok _ => none | .error e => some e),
       ⟨addr, pass, match d with | .ok c2 => some c2 | .error _ => none⟩,
       ⟨ds, es, match co with | some _ => cs | none => cl :: cs⟩,
       (match co with | some c => [Event.close c cl] | none => []) ++
         [Event.dial addr pass d]) := by
  cases co <;> cases d <;> rfl

/-- C5: `Close()` with no owned connection returns no error, leaves the
client and the world untouched and performs no transport call; with an
owned connection it closes it (one `close` event), always clears
ownership, and returns the underlying close's outcome `cl`. -/
theorem Close_idempotent_and_clears_ownership (addr pass : String) (c : Conn)
    (cl : Option GoErr) (w : World) (ds : List (Except GoErr Conn))
    (es : List (String × Option GoErr)) (cs : List (Option GoErr)) :
    Client.Close ⟨addr, pass, none⟩ w = (none, ⟨addr, pass, none⟩, w, []) ∧
    Client.Close ⟨addr, pass, some c⟩ ⟨ds, es, cl :: cs⟩ =
      (cl, ⟨addr, pass, none⟩, ⟨ds, es, cs⟩, [Event.close c cl]) :=
  ⟨rfl, rfl⟩

/-- C1: with a connection owned and the retry flag true, a first execute
answered by a severed-connection signal `e1` causes exactly one reconnect
(one close + one dial, the next scripted dial) followed by exactly one
retried execute of the same command, and the result is exactly that of the
same call with the retry flag false on the post-reconnect state — which
performs one execute and nothing else, so when the retried attempt also
fails (e.g. with a severed signal `err2`) no further reconnect or retry
occurs and that failure is returned. -/
theorem executeWithRetry_severed_reconnects_once
    (addr pass cmd resp1 resp2 : String) (c c2 : Conn) (e1 : GoErr)
    (err2 : Option GoErr) (cl : Option GoErr)
    (ds : List (Except GoErr Conn)) (es : List (String × Option GoErr))
    (cs : List (Option GoErr))
    (h : isSeveredSignal (some e1) = true) :
    Client.executeWithRetry ⟨addr, pass, some c⟩
        ⟨.ok c2 :: ds, (resp1, some e1) :: (resp2, err2) :: es, cl :: cs⟩ cmd true =
      ((trimSpace resp2, err2), ⟨addr, pass, some c2⟩, ⟨ds, es, cs⟩,
        [.exec c cmd resp1 (some e1), .close c cl, .dial addr pass (.ok c2),
         .exec c2 cmd resp2 err2]) ∧
    Client.executeWithRetry ⟨addr, pass, some c2⟩
        ⟨ds, (resp2, err2) :: es, cs⟩ cmd false =
      ((trimSpace resp2, err2), ⟨addr, pass, some c2⟩, ⟨ds, es, cs⟩,
        [.exec c2 cmd resp2 err2]) := by
  constructor
  · simp [Client.executeWithRetry, Client.connect, rconDial, connExecute, connClose, h]
  · simp [Client.executeWithRetry, connExecute]

/-- Witness for C1: concrete run with `io.EOF` on the first attempt and
`syscall.EPIPE` on the retried one. -/
theorem executeWithRetry_severed_reconnects_once_witness :
    Client.executeWithRetry ⟨"addr", "pw", some ⟨0⟩⟩
        ⟨[.ok ⟨1⟩], [("r1", some .eof), ("r2", some .epipe)], [none]⟩ "Save" true =
      ((trimSpace "r2", some (GoErr.epipe)), ⟨"addr", "pw", some ⟨1⟩⟩, ⟨[], [], []⟩,
        [.exec ⟨0⟩ "Save" "r1" (some .eof), .close ⟨0⟩ none,
         .dial "addr" "pw" (.ok ⟨1⟩), .exec ⟨1⟩ "Save" "r2" (some .epipe)]) ∧
    Client.executeWithRetry ⟨"addr", "pw", some ⟨1⟩⟩
        ⟨[], [("r2", some .epipe)], []⟩ "Save" false =
      ((trimSpace "r2", some (GoErr.epipe)), ⟨"addr", "pw", some ⟨1⟩⟩, ⟨[], [], []⟩,
        [.exec ⟨1⟩ "Save" "r2" (some .epipe)]) :=
  executeWithRetry_severed_reconnects_once "addr" "pw" "Save" "r1" "r2"
    ⟨0⟩ ⟨1⟩ .eof (some .epipe) none [] [] [] rfl

/-- C2: an execute failure that is not a severed-connection signal is
returned as-is, with no reconnect and no retry (the one `exec` event is
all the transport activity), whatever the retry flag. -/
theorem executeWithRetry_other_error_no_retry
    (addr pass cmd resp : String) (c : Conn) (e : GoErr) (retry : Bool)
    (ds : List (Except GoErr Conn)) (es : List (String × Option GoErr))
    (cs : List (Option GoErr))
    (h : isSeveredSignal (some e) = false) :
    Client.executeWithRetry ⟨addr, pass, some c⟩ ⟨ds, (resp, some e) :: es, cs⟩ cmd retry =
      ((trimSpace resp, some e), ⟨addr, pass, some c⟩, ⟨ds, es, cs⟩,
        [.exec c cmd resp (some e)]) := by
  simp [Client.executeWithRetry, connExecute, h]

/-- Witness for C2: a concrete non-severed transport error is passed
through untouched and consumes no dial. -/
theorem executeWithRetry_other_error_no_retry_witness :
    Client.executeWithRetry ⟨"addr", "pw", some ⟨0⟩⟩
        ⟨[], [("bad", some (.transport "boom"))], []⟩ "Save" true =
      ((trimSpace "bad", some (GoErr.transport "boom")), ⟨"addr", "pw", some ⟨0⟩⟩,
        ⟨[], [], []⟩, [.exec ⟨0⟩ "Save" "bad" (some (.transport "boom"))]) :=
  executeWithRetry_other_error_no_retry "addr" "pw" "Save" "bad" ⟨0⟩
    (.transport "boom") true [] [] [] rfl

/-- C6: `NewClient` performs no transport activity (world unchanged, empty
trace, no connection owned), and on a client owning no connection — the
state `NewClient` produces and the state `Close()` leaves behind — the
next command invocation performs exactly one dial before issuing the
command over the fresh connection. -/
theorem NewClient_lazy_connect
    (addr pass cmd resp : String) (c : Conn) (retry : Bool)
    (w0 : World) (ds : List (Except GoErr Conn))
    (es : List (String × Option GoErr)) (cs : List (Option GoErr)) :
    NewClient addr pass w0 = (⟨addr, pass, none⟩, w0, []) ∧
    Client.executeWithRetry ⟨addr, pass, none⟩
        ⟨.ok c :: ds, (resp, none) :: es, cs⟩ cmd retry =
      ((trimSpace resp, none), ⟨addr, pass, some c⟩, ⟨ds, es, cs⟩,
        [.dial addr pass (.ok c), .exec c cmd resp none]) := by
  refine ⟨rfl, ?_⟩
  simp [Client.executeWithRetry, Client.connect, rconDial, connExecute, connClose,
    isSeveredSignal]

/-- C3: when the transport call of the timed-shutdown command itself fails
(`executeWithRetry` returns a non-nil error), both `Shutdown` and
`ShutdownWithMessage` return success (`none`), swallowing the
transport-level error — the `return nil` quirk of `shutdown`. -/
theorem Shutdown_swallows_transport_error (r : Client) (w : World)
    (seconds : Int) (message : String) (e1 e2 : GoErr)
    (h1 : (r.executeWithRetry w ("Shutdown " ++ toString seconds) true).1.2 = some e1)
    (h2 : (r.executeWithRetry w
        ("Shutdown " ++ (toString seconds ++ " " ++ message)) true).1.2 = some e2) :
    (r.Shutdown w seconds).1 = none ∧
    (r.ShutdownWithMessage w seconds message).1 = none := by
  constructor
  · rcases hcall : r.executeWithRetry w ("Shutdown " ++ toString seconds) true
      with ⟨⟨resp, err⟩, r1, w1, ev⟩
    rw [hcall] at h1
    simp only at h1
    simp [Client.Shutdown, Client.shutdown, hcall, h1]
  · rcases hcall : r.executeWithRetry w
        ("Shutdown " ++ (toString seconds ++ " " ++ message)) true
      with ⟨⟨resp, err⟩, r1, w1, ev⟩
    rw [hcall] at h2
    simp only at h2
    simp [Client.ShutdownWithMessage, Client.shutdown, hcall, h2]

/-- Witness for C3: a concrete transport error on the `Shutdown 5` call is
swallowed by both methods. -/
theorem Shutdown_swallows_transport_error_witness :
    (Client.Shutdown ⟨"a", "p", some ⟨0⟩⟩
      ⟨[], [("", some (.transport "boom"))], []⟩ 5).1 = none ∧
    (Client.ShutdownWithMessage ⟨"a", "p", some ⟨0⟩⟩
      ⟨[], [("", some (.transport "boom"))], []⟩ 5 "bye").1 = none :=
  Shutdown_swallows_transport_error ⟨"a", "p", some ⟨0⟩⟩
    ⟨[], [("", some (.transport "boom"))], []⟩ 5 "bye"
    (.transport "boom") (.transport "boom")
    (by simp [Client.executeWithRetry, connExecute, isSeveredSignal])
    (by simp [Client.executeWithRetry, connExecute, isSeveredSignal])

set_option maxRecDepth 8000 in
/-- C7: on transport success, `Info` applies the `infoRegexMatch` pattern
(`Welcome to Pal Server[v<version>] <name>` with version a run of digits
and dots and name the rest of the line) to the trimmed response: a match
yields the `ServerInfo` with submatch 2 as name and submatch 1 as version,
a non-match yields an error embedding the raw (trimmed) response; in
particular `Welcome to Pal Server[v1.5.2] MyServer` yields
version `1.5.2` and name `MyServer`. -/
theorem Info_decodes_version_and_name (addr pass s : String) (c : Conn)
    (ds : List (Except GoErr Conn)) (es : List (String × Option GoErr))
    (cs : List (Option GoErr)) :
    (Client.Info ⟨addr, pass, some c⟩ ⟨ds, (s, none) :: es, cs⟩).1 =
      (match infoRegexMatch (trimSpace s) with
       | some (version, name) => (some ⟨name, version⟩, none)
       | none => (none, some (.fmtErr ("failed to parse Info output: " ++ trimSpace s)))) ∧
    (Client.Info ⟨addr, pass, some c⟩
        ⟨ds, ("Welcome to Pal Server[v1.5.2] MyServer", none) :: es, cs⟩).1 =
      (some ⟨"MyServer", "1.5.2"⟩, none) := by
  have key : ∀ t : String,
      (Client.Info ⟨addr, pass, some c⟩ ⟨ds, (t, none) :: es, cs⟩).1 =
      (match infoRegexMatch (trimSpace t) with
       | some (version, name) => (some ⟨name, version⟩, none)
       | none => (none, some (.fmtErr ("failed to parse Info output: " ++ trimSpace t)))) := by
    intro t
    cases hm : infoRegexMatch (trimSpace t) with
    | none => simp [Client.Info, Client.executeWithRetry, connExecute, isSeveredSignal, hm]
    | some p =>
        obtain ⟨ver, name⟩ := p
        simp [Client.Info, Client.executeWithRetry, connExecute, isSeveredSignal, hm]
  refine ⟨key s, (key _).trans ?_⟩
  decide

set_option maxRecDepth 8000 in
/-- C9: on transport success, `BanPlayer` succeeds iff the trimmed response
has the (sic) `Baned: ` marker at its start, and `DoExit` succeeds iff the
trimmed response is exactly `Shutdown...`; otherwise each returns its
command-specific error carrying the unexpected response text — concretely,
`Baned: 123` and `Shutdown...` succeed while `Not found` yields
`failed to ban player: Not found`. -/
theorem BanPlayer_DoExit_decode (addr pass s : String) (c : Conn) (steamID : Nat)
    (ds : List (Except GoErr Conn)) (es : List (String × Option GoErr))
    (cs : List (Option GoErr)) :
    (Client.BanPlayer ⟨addr, pass, some c⟩ ⟨ds, (s, none) :: es, cs⟩ steamID).1 =
      (if hasPre (trimSpace s) "Baned: " then none
       else some (.fmtErr ("failed to ban player: " ++ trimSpace s))) ∧
    (Client.DoExit ⟨addr, pass, some c⟩ ⟨ds, (s, none) :: es, cs⟩).1 =
      (if trimSpace s = "Shutdown..." then none
       else some (.fmtErr ("failed to shut down: " ++ trimSpace s))) ∧
    (Client.BanPlayer ⟨addr, pass, some c⟩ ⟨ds, ("Baned: 123", none) :: es, cs⟩ 123).1 = none ∧
    (Client.BanPlayer ⟨addr, pass, some c⟩ ⟨ds, ("Not found", none) :: es, cs⟩ 123).1 =
      some (.fmtErr "failed to ban player: Not found") ∧
    (Client.DoExit ⟨addr, pass, some c⟩ ⟨ds, ("Shutdown...", none) :: es, cs⟩).1 = none := by
  have hban : ∀ (t : String) (sid : Nat),
      (Client.BanPlayer ⟨addr, pass, some c⟩ ⟨ds, (t, none) :: es, cs⟩ sid).1 =
        (if hasPre (trimSpace t) "Baned: " then none
         else some (.fmtErr ("failed to ban player: " ++ trimSpace t))) := by
    intro t sid
    cases hm : hasPre (trimSpace t) "Baned: " <;>
      simp [Client.BanPlayer, Client.executeWithRetry, connExecute, isSeveredSignal, hm]
  have hexit : ∀ t : String,
      (Client.DoExit ⟨addr, pass, some c⟩ ⟨ds, (t, none) :: es, cs⟩).1 =
        (if trimSpace t = "Shutdown..." then none
         else some (.fmtErr ("failed to shut down: " ++ trimSpace t))) := by
    intro t
    by_cases hm : trimSpace t = "Shutdown..." <;>
      simp [Client.DoExit, Client.executeWithRetry, connExecute, isSeveredSignal, hm]
  exact ⟨hban s steamID, hexit s, (hban _ _).trans (by decide),
    (hban _ _).trans (by decide), (hexit _).trans (by decide)⟩

/-- Helper: a row decoding to a player advances the `ShowPlayers` loop by
appending that player. -/
theorem parsePlayersLoop_cons_ok (record : List String) (rest : List (List String))
    (acc : List Player) (p : Player) (hp : rowToPlayer record = some p) :
    parsePlayersLoop acc (record :: rest) = parsePlayersLoop (acc ++ [p]) rest := by
  simp only [rowToPlayer] at hp
  simp only [parsePlayersLoop]
  split
  next hlen => rw [if_pos hlen] at hp; exact Option.noConfusion hp
  next hlen =>
    rw [if_neg hlen] at hp
    cases h1 : parseUint64 (record.getD 1 "") with
    | error m => rw [h1] at hp; exact Option.noConfusion hp
    | ok uid =>
        rw [h1] at hp
        cases h2 : parseUint64 (record.getD 2 "") with
        | error m => rw [h2] at hp; exact Option.noConfusion hp
        | ok sid =>
            rw [h2] at hp
            obtain rfl := Option.some.inj hp
            rfl

/-- Helper: a malformed row stops the `ShowPlayers` loop with a
`fmt.Errorf` error and the players collected so far. -/
theorem parsePlayersLoop_cons_err (record : List String) (rest : List (List String))
    (acc : List Player) (hp : rowToPlayer record = none) :
    ∃ msg, parsePlayersLoop acc (record :: rest) = (acc, some (.fmtErr msg)) := by
  simp only [rowToPlayer] at hp
  simp only [parsePlayersLoop]
  split
  next hlen => exact ⟨_, rfl⟩
  next hlen =>
    rw [if_neg hlen] at hp
    cases h1 : parseUint64 (record.getD 1 "") with
    | error m => exact ⟨_, rfl⟩
    | ok uid =>
        rw [h1] at hp
        cases h2 : parseUint64 (record.getD 2 "") with
        | error m => exact ⟨_, rfl⟩
        | ok sid => rw [h2] at hp; exact Option.noConfusion hp

/-- Helper: when every data row is well formed the loop returns exactly
the decoded players, in order, with no error. -/
theorem parsePlayersLoop_mapM_ok (rows : List (List String)) :
    ∀ (ps acc : List Player), rows.mapM rowToPlayer = some ps →
      parsePlayersLoop acc rows = (acc ++ ps, none) := by
  induction rows with
  | nil =>
      intro ps acc h
      rw [List.mapM_nil] at h
      obtain rfl := Option.some.inj h
      simp [parsePlayersLoop]
  | cons record rest ih =>
      intro ps acc h
      rw [List.mapM_cons] at h
      cases hp : rowToPlayer record with
      | none => rw [hp] at h; simp at h
      | some p =>
          rw [hp] at h
          cases hrest : rest.mapM rowToPlayer with
          | none => rw [hrest] at h; simp at h
          | some ps2 =>
              rw [hrest] at h
              simp at h
              subst h
              rw [parsePlayersLoop_cons_ok record rest acc p hp,
                ih ps2 (acc ++ [p]) hrest]
              simp

/-- Helper: when some data row is malformed the loop ends with a
`fmt.Errorf` error. -/
theorem parsePlayersLoop_mapM_err (rows : List (List String)) :
    ∀ acc : List Player, rows.mapM rowToPlayer = none →
      ∃ msg, (parsePlayersLoop acc rows).2 = some (.fmtErr msg) := by
  induction rows with
  | nil => intro acc h; exact Option.noConfusion (List.mapM_nil (f := rowToPlayer) ▸ h)
  | cons record rest ih =>
      intro acc h
      rw [List.mapM_cons] at h
      cases hp : rowToPlayer record with
      | none =>
          obtain ⟨msg, hmsg⟩ := parsePlayersLoop_cons_err record rest acc hp
          exact ⟨msg, by rw [hmsg]⟩
      | some p =>
          rw [hp] at h
          cases hrest : rest.mapM rowToPlayer with
          | none =>
              obtain ⟨msg, hmsg⟩ := ih (acc ++ [p]) hrest
              exact ⟨msg, by rw [parsePlayersLoop_cons_ok record rest acc p hp]; exact hmsg⟩
          | some ps2 => rw [hrest] at h; simp at h

/-- C8: on transport success, if the (doubly) trimmed response reads as a
CSV table with a header row, then: all data rows well formed (3 columns,
numeric ids) — `ShowPlayers` returns exactly one `Player` per data row in
order with no error; some data row malformed — it returns a `fmt.Errorf`
parse error instead; and if the CSV reader itself rejects the table (as it
does any row whose column count differs from the header's, e.g. a 2-column
data row under a 3-column header) — it also returns a parse error. -/
theorem ShowPlayers_parses_table (addr pass s : String) (c : Conn)
    (hdr : List String) (rows : List (List String)) (ps : List Player) (ce : CsvErr)
    (ds : List (Except GoErr Conn)) (es : List (String × Option GoErr))
    (cs : List (Option GoErr)) :
    (csvReadAll (trimSpace (trimSpace s)) = .ok (hdr :: rows) →
      rows.mapM rowToPlayer = some ps →
      Client.ShowPlayers ⟨addr, pass, some c⟩ ⟨ds, (s, none) :: es, cs⟩ =
        .ok ((ps, none), ⟨addr, pass, some c⟩, ⟨ds, es, cs⟩,
          [.exec c "ShowPlayers" s none])) ∧
    (csvReadAll (trimSpace (trimSpace s)) = .ok (hdr :: rows) →
      rows.mapM rowToPlayer = none →
      ∃ msg, showPlayersErr
        (Client.ShowPlayers ⟨addr, pass, some c⟩ ⟨ds, (s, none) :: es, cs⟩) =
          some (.fmtErr msg)) ∧
    (csvReadAll (trimSpace (trimSpace s)) = .error ce →
      ∃ msg, showPlayersErr
        (Client.ShowPlayers ⟨addr, pass, some c⟩ ⟨ds, (s, none) :: es, cs⟩) =
          some (.fmtErr msg)) := by
  refine ⟨?_, ?_, ?_⟩
  · intro hcsv hps
    have hloop := parsePlayersLoop_mapM_ok rows ps [] hps
    simp at hloop
    simp [Client.ShowPlayers, Client.executeWithRetry, connExecute, isSeveredSignal,
      hcsv, hloop]
  · intro hcsv hps
    obtain ⟨msg, hmsg⟩ := parsePlayersLoop_mapM_err rows [] hps
    refine ⟨msg, ?_⟩
    rcases hloop : parsePlayersLoop [] rows with ⟨ps2, err2⟩
    rw [hloop] at hmsg
    simp at hmsg
    simp [showPlayersErr, Client.ShowPlayers, Client.executeWithRetry, connExecute,
      isSeveredSignal, hcsv, hloop, hmsg]
  · intro hcsv
    refine ⟨"failed to parse ShowPlayers response as CSV: " ++ csvErrMsg ce, ?_⟩
    simp [showPlayersErr, Client.ShowPlayers, Client.executeWithRetry, connExecute,
      isSeveredSignal, hcsv]

set_option maxRecDepth 40000 in
/-- Witness for C8: the spec's round-trip example decodes to the single
player Alice; a 2-column table yields a loop parse error; a 2-column data
row under a 3-column header yields a CSV reader error. -/
theorem ShowPlayers_parses_table_witness :
    Client.ShowPlayers ⟨"a", "p", some ⟨0⟩⟩
        ⟨[], [("name,playerUID,steamID\nAlice,1001,76500000000000001", none)], []⟩ =
      .ok (([{ Name := "Alice", PlayerUID := 1001, SteamID := 76500000000000001 }], none),
        ⟨"a", "p", some ⟨0⟩⟩, ⟨[], [], []⟩,
        [.exec ⟨0⟩ "ShowPlayers" "name,playerUID,steamID\nAlice,1001,76500000000000001" none]) ∧
    (∃ msg, showPlayersErr (Client.ShowPlayers ⟨"a", "p", some ⟨0⟩⟩
        ⟨[], [("name,playerUID\nAlice,1001", none)], []⟩) = some (.fmtErr msg)) ∧
    (∃ msg, showPlayersErr (Client.ShowPlayers ⟨"a", "p", some ⟨0⟩⟩
        ⟨[], [("name,playerUID,steamID\nAlice,1001", none)], []⟩) = some (.fmtErr msg)) :=
  ⟨(ShowPlayers_parses_table "a" "p" "name,playerUID,steamID\nAlice,1001,76500000000000001"
      ⟨0⟩ ["name", "playerUID", "steamID"] [["Alice", "1001", "76500000000000001"]]
      [{ Name := "Alice", PlayerUID := 1001, SteamID := 76500000000000001 }] .fieldCount
      [] [] []).1 (by decide) (by decide),
   (ShowPlayers_parses_table "a" "p" "name,playerUID\nAlice,1001"
      ⟨0⟩ ["name", "playerUID"] [["Alice", "1001"]] [] .fieldCount [] [] []).2.1
      (by decide) (by decide),
   (ShowPlayers_parses_table "a" "p" "name,playerUID,steamID\nAlice,1001"
      ⟨0⟩ [] [] [] .fieldCount [] [] []).2.2 (by decide)⟩

/-- C10: on transport success, when the trimmed response yields zero CSV
records (the `Read` loop returns an empty record set, as for an empty
response), the `records[1:]` slice is out of bounds and `ShowPlayers`
panics instead of returning an error. -/
theorem ShowPlayers_no_records_panics (addr pass s : String) (c : Conn)
    (ds : List (Except GoErr Conn)) (es : List (String × Option GoErr))
    (cs : List (Option GoErr))
    (h : csvReadAll (trimSpace (trimSpace s)) = .ok []) :
    Client.ShowPlayers ⟨addr, pass, some c⟩ ⟨ds, (s, none) :: es, cs⟩ =
      .panic "runtime error: slice bounds out of range [1:0]" := by
  simp [Client.ShowPlayers, Client.executeWithRetry, connExecute, isSeveredSignal, h]

/-- Witness for C10: the empty response makes `ShowPlayers` panic. -/
theorem ShowPlayers_no_records_panics_witness :
    Client.ShowPlayers ⟨"a", "p", some ⟨0⟩⟩ ⟨[], [("", none)], []⟩ =
      .panic "runtime error: slice bounds out of range [1:0]" :=
  ShowPlayers_no_records_panics "a" "p" "" ⟨0⟩ [] [] [] rfl

end PalworldRcon
